import Mathlib

/-
Verification of the BDE `bslma` allocator protocol test driver
(src/groups/bsl/bslma/bslma_allocator.t.cpp) and the `ball` value types
(src/groups/bal/ball/ball_record.h, src/groups/bal/ball/ball_attribute.h).

Pointers are modelled as `Option Nat` (`none` is the null pointer, `some a`
is the address `a`).  The global heap backing `operator new` / `operator
delete`, the instrumentation counter of `my_NewDeleteAllocator`, the global
constructor/destructor counters of the test classes, and a trace of
allocator events are threaded through a single `World` state.

The component header `bslma_allocator.h` (which defines `deleteObject`,
`deleteObjectRaw`, the placement `operator new`/`operator delete` taking a
`bslma::Allocator&`, and the default `do_allocate`/`do_deallocate`
implementations inherited from `bsl::memory_resource`) is not part of the
sources; those operations are modelled from the specification, and each
such definition carries a doc comment beginning `Modelled from the spec:`.
All other definitions are translated directly from the sources.
-/

/-- Platform constant `bsls::AlignmentUtil::BSLS_MAX_ALIGNMENT` (the test
driver only uses it as a fixed positive offset). -/
def BSLS_MAX_ALIGNMENT : Nat := 16

/-- Magic word written by `my_NewDeleteAllocator::allocate` at the start of
each block (`MAGIC = 0xDEADBEEF`). -/
def MAGIC : Nat := 0xDEADBEEF

/-- Word written by `my_NewDeleteAllocator::deallocate` over the magic word
when a block is released (`DELETED = 0xBADF000D`). -/
def DELETED : Nat := 0xBADF000D

/-- Model of the global `operator new` heap: a bump pointer for fresh
addresses, the set of live base addresses, and the word stored at each
address (used for the MAGIC/DELETED bookkeeping). -/
structure Heap where
  nextAddr : Nat
  allocated : List Nat
  mem : Nat → Nat

/-- The file-scope instrumentation globals of the test driver:
`globalObjectStatus`, `class3ObjectCount` and the four diamond-hierarchy
counters (`virtualBaseObjectCount`, `leftBaseObjectCount`,
`rightBaseObjectCount`, `mostDerivedObjectCount`). -/
structure Globals where
  globalObjectStatus : Int
  class3ObjectCount : Int
  virtualBaseObjectCount : Int
  leftBaseObjectCount : Int
  rightBaseObjectCount : Int
  mostDerivedObjectCount : Int

/-- One observable call on a `my_NewDeleteAllocator`: an `allocate` call
with its size argument and returned pointer, or a `deallocate` call with
its pointer argument. -/
inductive AllocEvent where
  | allocCall (size : Nat) (ret : Option Nat)
  | deallocCall (arg : Option Nat)
deriving DecidableEq, Repr

/-- Combined state for scenarios driven through `my_NewDeleteAllocator`:
its `d_count` member, the backing heap, the trace of allocator calls, and
the test driver's global counters. -/
structure World where
  count : Nat
  heap : Heap
  events : List AllocEvent
  globals : Globals

/-- Translation of `my_NewDeleteAllocator::allocate` (bslma_allocator.t.cpp
lines 248-260): increment `d_count`; a zero-byte request returns the null
pointer; otherwise obtain a fresh block of `size + BSLS_MAX_ALIGNMENT`
bytes from `operator new`, write `MAGIC` at its start, and return the
address just past the alignment prefix. -/
def nda_allocate (w : World) (size : Nat) : Option Nat × World :=
  let cnt := w.count + 1
  if size = 0 then
    (none, { w with count := cnt,
                    events := w.events ++ [AllocEvent.allocCall size none] })
  else
    let base := w.heap.nextAddr
    let ret := some (base + BSLS_MAX_ALIGNMENT)
    let heap1 : Heap :=
      { nextAddr := base + size + BSLS_MAX_ALIGNMENT,
        allocated := base :: w.heap.allocated,
        mem := fun a => if a = base then MAGIC else w.heap.mem a }
    (ret, { w with count := cnt, heap := heap1,
                   events := w.events ++ [AllocEvent.allocCall size ret] })

/-- Translation of `my_NewDeleteAllocator::deallocate` (bslma_allocator.t.cpp
lines 262-275): increment `d_count`; a null address returns immediately;
otherwise step back over the alignment prefix to the block's base address,
overwrite the magic word with `DELETED`, and release the block with
`operator delete`.  (The `ASSERT(MAGIC == *p)` in the source is test
instrumentation that does not alter the state.) -/
def nda_deallocate (w : World) (address : Option Nat) : World :=
  let cnt := w.count + 1
  let ev := w.events ++ [AllocEvent.deallocCall address]
  match address with
  | none => { w with count := cnt, events := ev }
  | some a =>
      let base := a - BSLS_MAX_ALIGNMENT
      let heap1 : Heap :=
        { nextAddr := w.heap.nextAddr,
          allocated := w.heap.allocated.erase base,
          mem := fun x => if x = base then DELETED else w.heap.mem x }
      { w with count := cnt, heap := heap1, events := ev }

/-- State of a `my_Allocator` (bslma_allocator.t.cpp lines 187-234):
`d_fun` and `d_arg` start indeterminate (`none`) since the constructor
leaves them uninitialized; `selfAddr` stands for the object's own address
(`this`), which `allocate` returns for nonzero sizes. -/
structure my_Allocator where
  d_fun : Option Int
  d_arg : Option Nat
  d_allocateCount : Nat
  d_deallocateCount : Nat
  selfAddr : Nat

/-- Translation of `my_Allocator::allocate`: records function code 1 and the
size argument, increments the allocate counter, and returns `this` for a
nonzero size and the null pointer for a zero size (`return s ? this : 0`). -/
def my_Allocator.allocate (A : my_Allocator) (s : Nat) :
    Option Nat × my_Allocator :=
  ((if s = 0 then none else some A.selfAddr),
   { A with d_fun := some 1, d_arg := some s,
            d_allocateCount := A.d_allocateCount + 1 })

/-- Translation of `my_Allocator::deallocate`: records function code 2 and
increments the deallocate counter; the pointer argument is ignored. -/
def my_Allocator.deallocate (A : my_Allocator) (_address : Option Nat) :
    my_Allocator :=
  { A with d_fun := some 2, d_deallocateCount := A.d_deallocateCount + 1 }

/-- The four static pointer types through which the test driver deletes a
`my_MostDerived` object of the "dreaded diamond" hierarchy
(bslma_allocator.t.cpp lines 313-346): the most-derived class itself, its
two direct bases `my_LeftBase` and `my_RightBase`, and the virtual base
`my_VirtualBase`. -/
inductive DiamondBase where
  | mostDerived
  | leftBase
  | rightBase
  | virtualBase
deriving DecidableEq, Repr

/-- Byte offset of each base-class subobject inside a complete
`my_MostDerived` object.  `my_LeftBase` is the leftmost base (offset 0);
`my_RightBase` is a non-leftmost base, so its subobject sits at a nonzero
offset (the test driver asserts at line 1013 that a `my_RightBase*` differs
numerically from the `my_MostDerived*`); the virtual base subobject is laid
out at the end of the object. -/
def baseOffset : DiamondBase → Nat
  | DiamondBase.mostDerived => 0
  | DiamondBase.leftBase => 0
  | DiamondBase.rightBase => 16
  | DiamondBase.virtualBase => 40

/-- Size in bytes of a complete `my_MostDerived` object in the modelled
layout (only its positivity matters to the test driver). -/
def sizeof_my_MostDerived : Nat := 48

/-- Size of `my_Class3` (a vptr plus no data, modelled as 8 bytes). -/
def sizeof_my_Class3 : Nat := 8

/-- Size of `my_ClassThatMayThrowFromConstructor` (one `char`). -/
def sizeof_my_ClassThatMayThrowFromConstructor : Nat := 1

/-- Effect of the constructor chain of `new (p) my_MostDerived`: the
constructors of `my_VirtualBase`, `my_LeftBase`, `my_RightBase` and
`my_MostDerived` each set their counter to 1 (lines 320-346). -/
def constructMostDerived (g : Globals) : Globals :=
  { g with virtualBaseObjectCount := 1, leftBaseObjectCount := 1,
           rightBaseObjectCount := 1, mostDerivedObjectCount := 1 }

/-- Effect of running the (virtual) destructor of a complete
`my_MostDerived` object: the destructors of `my_MostDerived`,
`my_RightBase`, `my_LeftBase` and `my_VirtualBase` each clear their counter
to 0 (lines 320-346). -/
def destroyMostDerived (g : Globals) : Globals :=
  { g with virtualBaseObjectCount := 0, leftBaseObjectCount := 0,
           rightBaseObjectCount := 0, mostDerivedObjectCount := 0 }

/-- Effect of `new (p) my_Class3`: the constructor increments
`class3ObjectCount` (line 306). -/
def constructClass3 (g : Globals) : Globals :=
  { g with class3ObjectCount := g.class3ObjectCount + 1 }

/-- Effect of running the (virtual) destructor of a `my_Class3`: it
decrements `class3ObjectCount` (line 311); the `my_Class3Base` destructor
body is empty. -/
def destroyClass3 (g : Globals) : Globals :=
  { g with class3ObjectCount := g.class3ObjectCount - 1 }

/-- Modelled from the spec: `bslma::Allocator::deleteObject` (declared in
bslma_allocator.h, which is not among the sources), instantiated at the
four diamond base types.  A null pointer is a no-op.  Otherwise the virtual
destructor runs the most-derived class's destructor (destroying the whole
`my_MostDerived` object even through a base-class pointer), the address of
the complete object is recovered (undoing the base-subobject offset, the
`dynamic_cast`-style most-derived-object recovery of spec section 4.2), and
that footprint address is passed to `deallocate`. -/
def deleteObjectDiamond (w : World) (t : DiamondBase) (p : Option Nat) :
    World :=
  match p with
  | none => w
  | some pv =>
      let w1 := { w with globals := destroyMostDerived w.globals }
      nda_deallocate w1 (some (pv - baseOffset t))

/-- Modelled from the spec: `bslma::Allocator::deleteObjectRaw`
(bslma_allocator.h, not among the sources), instantiated at the diamond
hierarchy.  A null pointer is a no-op.  Otherwise the virtual destructor
destroys the complete object, and the given pointer value itself is passed
to `deallocate` with no most-derived-address adjustment (spec section 4.2,
the "raw" variant's documented precondition). -/
def deleteObjectRawDiamond (w : World) (p : Option Nat) : World :=
  match p with
  | none => w
  | some pv =>
      let w1 := { w with globals := destroyMostDerived w.globals }
      nda_deallocate w1 (some pv)

/-- Modelled from the spec: `bslma::Allocator::deleteObjectRaw`
instantiated at `my_Class3`.  A null pointer is a no-op; otherwise the
destructor runs once and the pointer value is deallocated unadjusted. -/
def deleteObjectRawClass3 (w : World) (p : Option Nat) : World :=
  match p with
  | none => w
  | some pv =>
      let w1 := { w with globals := destroyClass3 w.globals }
      nda_deallocate w1 (some pv)

/-- Modelled from the spec: the `deleteObject(bsl::nullptr_t)` overload of
`bslma::Allocator` (bslma_allocator.h, not among the sources), taking a
null-pointer literal; it does nothing. -/
def deleteObjectNullLiteral (w : World) : World := w

/-- Modelled from the spec: the `deleteObjectRaw(bsl::nullptr_t)` overload
of `bslma::Allocator` (bslma_allocator.h, not among the sources), taking a
null-pointer literal; it does nothing. -/
def deleteObjectRawNullLiteral (w : World) : World := w

/-- The test scenario of case 2 (bslma_allocator.t.cpp lines 954-1041):
allocate a footprint for a `my_MostDerived` object from a
`my_NewDeleteAllocator`, placement-construct the object in it, convert the
pointer to the static base type `t` (adding the base-subobject offset), and
call `deleteObject` through that base pointer. -/
def diamondDeleteObjectRun (w : World) (t : DiamondBase) : World :=
  let r := nda_allocate w sizeof_my_MostDerived
  let w2 := { r.2 with globals := constructMostDerived r.2.globals }
  deleteObjectDiamond w2 t (r.1.map (fun a => a + baseOffset t))

/-- The `my_Class3` scenario of case 3 (lines 763-783): allocate a
footprint, placement-construct a `my_Class3` in it, and call
`deleteObjectRaw` on the pointer returned by `allocate`. -/
def class3DeleteObjectRawRun (w : World) : World :=
  let r := nda_allocate w sizeof_my_Class3
  let w2 := { r.2 with globals := constructClass3 r.2.globals }
  deleteObjectRawClass3 w2 r.1

/-- The `my_MostDerived` scenario of case 3 (lines 805-832): allocate a
footprint, placement-construct a `my_MostDerived` in it, and call
`deleteObjectRaw` on the most-derived pointer returned by `allocate`. -/
def diamondDeleteObjectRawRun (w : World) : World :=
  let r := nda_allocate w sizeof_my_MostDerived
  let w2 := { r.2 with globals := constructMostDerived r.2.globals }
  deleteObjectRawDiamond w2 r.1

/-- Address of the footprint that `nda_allocate` hands out next for a
nonzero-size request (the user address just past the alignment prefix). -/
def nextFootprint (w : World) : Nat :=
  w.heap.nextAddr + BSLS_MAX_ALIGNMENT

/-- Translation of the constructor of `my_ClassThatMayThrowFromConstructor`
(bslma_allocator.t.cpp lines 521-534): under `BDE_BUILD_TARGET_EXC` it
throws the `int` value 13. -/
def my_ClassThatMayThrowFromConstructor_ctor : Except Int Unit :=
  Except.error 13

/-- Modelled from the spec: the expression `new (allocator) T(args...)`
via the placement `operator new(size, bslma::Allocator&)` and its paired
`operator delete(address, bslma::Allocator&)` (both declared in
bslma_allocator.h, which is not among the sources).  Storage is acquired
with exactly `allocate(size)`; if the constructor throws, the language's
unwinding machinery invokes the paired delete operator — exactly
`deallocate(p)` — and the original exception propagates unchanged; on
success the pointer returned by `allocate` is the value of the expression.
The returned event list is the trace of allocator calls the expression
makes. -/
def placementNew {σ ε α : Type} (allocate : σ → Nat → Option Nat × σ)
    (deallocate : σ → Option Nat → σ) (size : Nat)
    (construct : Option Nat → Except ε α) (s : σ) :
    Except ε (Option Nat × α) × σ × List AllocEvent :=
  let r := allocate s size
  match construct r.1 with
  | Except.ok v => (Except.ok (r.1, v), r.2, [AllocEvent.allocCall size r.1])
  | Except.error e =>
      (Except.error e, deallocate r.2 r.1,
       [AllocEvent.allocCall size r.1, AllocEvent.deallocCall r.1])

/-- The case-5 scenario (bslma_allocator.t.cpp lines 630-655):
`new (a) my_ClassThatMayThrowFromConstructor` on a `my_Allocator`, whose
constructor throws 13. -/
def case5Run (A : my_Allocator) :
    Except Int (Option Nat × Unit) × my_Allocator × List AllocEvent :=
  placementNew my_Allocator.allocate my_Allocator.deallocate
    sizeof_my_ClassThatMayThrowFromConstructor
    (fun _ => my_ClassThatMayThrowFromConstructor_ctor) A

/-- Modelled from the spec: the memory-acquisition half of
`new (allocator) T` — the placement `operator new(size, bslma::Allocator&)`
of bslma_allocator.h (not among the sources) — forwards to
`allocator.allocate(size)` and evaluates to the pointer that call
returns (spec section 4.3). -/
def operatorNewBslma (A : my_Allocator) (size : Nat) :
    Option Nat × my_Allocator :=
  my_Allocator.allocate A size

/-- Modelled from the spec: the default (non-pure) `do_allocate`
implementation that `bslma::Allocator` (bslma_allocator.h, not among the
sources) inherits into minimal allocators: it forwards to `allocate(bytes)`
(the alignment argument is not used beyond the common case); per the test
driver's case-1 assertions (lines 1158-1168), a request for which
`allocate` returns the null pointer yields a fixed non-null sentinel
pointer instead, the same one on every call. -/
def default_do_allocate {σ : Type} (allocate : σ → Nat → Option Nat × σ)
    (sentinel : Nat) (s : σ) (bytes _align : Nat) : Option Nat × σ :=
  let r := allocate s bytes
  match r.1 with
  | some p => (some p, r.2)
  | none => (some sentinel, r.2)

/-- Modelled from the spec: the default (non-pure) `do_deallocate`
implementation of `bslma::Allocator` (bslma_allocator.h, not among the
sources): it performs exactly `deallocate(p)`, ignoring the size and
alignment arguments. -/
def default_do_deallocate {σ : Type} (deallocate : σ → Option Nat → σ)
    (s : σ) (p : Option Nat) (_bytes _align : Nat) : σ :=
  deallocate s p

/-- Fixed address of the sentinel returned by the default `do_allocate` for
a zero-byte request (the case-1 assertions only require it to be non-null
and the same on every call). -/
def zeroSizedSentinelAddr : Nat := 1

/-- Default `do_allocate` as inherited by `my_NewDeleteAllocator`, which
overrides only `allocate` and `deallocate`. -/
def nda_do_allocate (w : World) (bytes align : Nat) : Option Nat × World :=
  default_do_allocate nda_allocate zeroSizedSentinelAddr w bytes align

/-- Default `do_deallocate` as inherited by `my_NewDeleteAllocator`. -/
def nda_do_deallocate (w : World) (p : Option Nat) (bytes align : Nat) :
    World :=
  default_do_deallocate nda_deallocate w p bytes align

namespace ball

/-- Model of `ball::Record` (ball_record.h lines 134-257), parametric in the
value types of its three sub-containers: `d_allocator` is the embedded
`CountingAllocator` (identified by the allocator it wraps), `d_fixedFields`
the `RecordAttributes`, `d_userFields` the `UserFields`, `d_attributes` the
`bsl::vector<ManagedAttribute>`, and `d_allocator_p` the held-not-owned
allocator pointer installed at construction. -/
structure Record (F U A : Type) where
  d_allocator : Nat
  d_fixedFields : F
  d_userFields : U
  d_attributes : List A
  d_allocator_p : Nat

/-- Translation of `ball::Record::operator=` (ball_record.h lines 327-335):
assign the fixed fields, user fields and attributes of `rhs` to the target;
neither `d_allocator` nor `d_allocator_p` is touched.  (The source's
`if (this != &rhs)` self-assignment guard produces the same value either
way, so it needs no address model.) -/
def Record.assign {F U A : Type} (lhs rhs : Record F U A) : Record F U A :=
  { lhs with d_fixedFields := rhs.d_fixedFields,
             d_userFields := rhs.d_userFields,
             d_attributes := rhs.d_attributes }

/-- Translation of the free `ball::operator==(const Record&, const Record&)`
(ball_record.h lines 404-409): two records are equal exactly when their
fixed fields, user fields, and attribute containers are all equal. -/
def recordEq {F U A : Type} [DecidableEq F] [DecidableEq U] [DecidableEq A]
    (lhs rhs : Record F U A) : Bool :=
  decide (lhs.d_fixedFields = rhs.d_fixedFields) &&
  decide (lhs.d_userFields = rhs.d_userFields) &&
  decide (lhs.d_attributes = rhs.d_attributes)

/-- Translation of the free `ball::operator!=(const Record&, const Record&)`
(ball_record.h lines 412-415): the negation of `operator==`. -/
def recordNe {F U A : Type} [DecidableEq F] [DecidableEq U] [DecidableEq A]
    (lhs rhs : Record F U A) : Bool :=
  !(recordEq lhs rhs)

/-- The alternatives of `ball::Attribute::Value`, the
`bdlb::Variant<int, long, long long, unsigned int, unsigned long,
unsigned long long, bsl::string, const void *, bdlb::Guid>` of
ball_attribute.h lines 159-167. -/
inductive ValueData where
  | intV (v : Int)
  | longV (v : Int)
  | longLongV (v : Int)
  | uintV (v : Nat)
  | ulongV (v : Nat)
  | ulongLongV (v : Nat)
  | stringV (v : String)
  | voidPtrV (v : Nat)
  | guidV (v : Nat)
deriving DecidableEq, Repr

/-- Model of the allocator-aware `ball::Attribute::Value` variant: the held
alternative together with the allocator the variant was constructed with
(every `Attribute` constructor passes `allocator.mechanism()` to
`d_value`). -/
structure Value where
  alloc : Nat
  data : ValueData

/-- Modelled from the spec: copy assignment of the allocator-aware
`bdlb::Variant` (bdlb_variant.h, not among the sources).  Per spec
section 6, assignment of an allocator-aware type never changes the target's
allocator: the held value is copied from the source while the target keeps
its own allocator. -/
def Value.assign (lhs rhs : Value) : Value :=
  { lhs with data := rhs.data }

/-- Model of `ball::Attribute` (ball_attribute.h lines 153-330): the
unmanaged name, the managed allocator-aware value, and the two mutable hash
cache members. -/
structure Attribute where
  d_name : String
  d_value : Value
  d_hashValue : Int
  d_hashSize : Int

/-- Translation of `ball::Attribute::operator=` (ball_attribute.h lines
495-502): assign the name, value, and the two hash cache members of `rhs`;
the value assignment is the variant assignment, which keeps the target's
allocator. -/
def Attribute.assign (lhs rhs : Attribute) : Attribute :=
  { d_name := rhs.d_name,
    d_value := Value.assign lhs.d_value rhs.d_value,
    d_hashValue := rhs.d_hashValue,
    d_hashSize := rhs.d_hashSize }

/-- Modelled from the spec: `ball::Attribute::get_allocator` (its inline
body lives with the `bdlb::Variant` accessors, not among the sources)
returns the allocator used by this object to supply memory — the one held
by its managed value, installed at construction. -/
def Attribute.get_allocator (a : Attribute) : Nat :=
  a.d_value.alloc

end ball

/-- C1: for every `my_MostDerived` object constructed in a footprint obtained
from a `my_NewDeleteAllocator`, calling `deleteObject` through any of the four
base-class pointer types (including `my_RightBase`, whose pointer value
differs numerically from the most-derived object's address) clears all four
constructor/destructor counters to zero and issues exactly one `deallocate`
call, at the address originally returned by `allocate` for the most-derived
object. -/
theorem deleteObject_diamond_correct (w : World) (t : DiamondBase) :
    (diamondDeleteObjectRun w t).globals.virtualBaseObjectCount = 0 ∧
    (diamondDeleteObjectRun w t).globals.leftBaseObjectCount = 0 ∧
    (diamondDeleteObjectRun w t).globals.rightBaseObjectCount = 0 ∧
    (diamondDeleteObjectRun w t).globals.mostDerivedObjectCount = 0 ∧
    (diamondDeleteObjectRun w t).events =
      w.events ++
        [AllocEvent.allocCall sizeof_my_MostDerived (some (nextFootprint w)),
         AllocEvent.deallocCall (some (nextFootprint w))] ∧
    (diamondDeleteObjectRun w t).count = w.count + 2 ∧
    nextFootprint w + baseOffset DiamondBase.rightBase ≠ nextFootprint w := by
  cases t <;>
    simp [diamondDeleteObjectRun, nda_allocate, nda_deallocate,
          deleteObjectDiamond, constructMostDerived, destroyMostDerived,
          sizeof_my_MostDerived, baseOffset, nextFootprint]

/-- C2: constructing via `new (allocator) T` when the constructor of
`my_ClassThatMayThrowFromConstructor` throws results in exactly one
`allocate` call and exactly one matching `deallocate` call on that allocator
(shown both by the call trace for an arbitrary allocator and by the
`my_Allocator` counters each increasing by exactly one), and the thrown
`int` 13 propagates unchanged to the caller. -/
theorem placementNew_ctor_throws (σ : Type)
    (allocate : σ → Nat → Option Nat × σ)
    (deallocate : σ → Option Nat → σ) (s : σ) (size : Nat)
    (A : my_Allocator) :
    (placementNew allocate deallocate size
      (fun _ => my_ClassThatMayThrowFromConstructor_ctor) s).1 =
        Except.error 13 ∧
    (placementNew allocate deallocate size
      (fun _ => my_ClassThatMayThrowFromConstructor_ctor) s).2.2 =
        [AllocEvent.allocCall size (allocate s size).1,
         AllocEvent.deallocCall (allocate s size).1] ∧
    (placementNew allocate deallocate size
      (fun _ => my_ClassThatMayThrowFromConstructor_ctor) s).2.1 =
        deallocate (allocate s size).2 (allocate s size).1 ∧
    (case5Run A).1 = Except.error 13 ∧
    (case5Run A).2.1.d_allocateCount = A.d_allocateCount + 1 ∧
    (case5Run A).2.1.d_deallocateCount = A.d_deallocateCount + 1 ∧
    (case5Run A).2.1.d_fun = some 2 := by
  simp [placementNew, case5Run, my_ClassThatMayThrowFromConstructor_ctor,
        my_Allocator.allocate, my_Allocator.deallocate]

/-- C4: `deleteObjectRaw` on a non-null pointer to a complete object runs the
object's destructor exactly once (for `my_Class3` the instrumented count drops
by exactly one; for the polymorphic `my_MostDerived` the virtual destructor
clears all four hierarchy counters) and then issues exactly one `deallocate`
call with that pointer, increasing the allocator's call count by exactly one
across the `deleteObjectRaw` call; the full case-3 scenarios restore the
counters and deallocate the footprint returned by `allocate`. -/
theorem deleteObjectRaw_correct (w : World) (a : Nat) :
    (deleteObjectRawClass3 w (some a)).count = w.count + 1 ∧
    (deleteObjectRawClass3 w (some a)).globals.class3ObjectCount =
      w.globals.class3ObjectCount - 1 ∧
    (deleteObjectRawClass3 w (some a)).events =
      w.events ++ [AllocEvent.deallocCall (some a)] ∧
    (deleteObjectRawDiamond w (some a)).count = w.count + 1 ∧
    (deleteObjectRawDiamond w (some a)).globals.virtualBaseObjectCount = 0 ∧
    (deleteObjectRawDiamond w (some a)).globals.leftBaseObjectCount = 0 ∧
    (deleteObjectRawDiamond w (some a)).globals.rightBaseObjectCount = 0 ∧
    (deleteObjectRawDiamond w (some a)).globals.mostDerivedObjectCount = 0 ∧
    (deleteObjectRawDiamond w (some a)).events =
      w.events ++ [AllocEvent.deallocCall (some a)] ∧
    (class3DeleteObjectRawRun w).globals.class3ObjectCount =
      w.globals.class3ObjectCount ∧
    (class3DeleteObjectRawRun w).events =
      w.events ++
        [AllocEvent.allocCall sizeof_my_Class3 (some (nextFootprint w)),
         AllocEvent.deallocCall (some (nextFootprint w))] ∧
    (diamondDeleteObjectRawRun w).events =
      w.events ++
        [AllocEvent.allocCall sizeof_my_MostDerived (some (nextFootprint w)),
         AllocEvent.deallocCall (some (nextFootprint w))] ∧
    (diamondDeleteObjectRawRun w).globals.mostDerivedObjectCount = 0 := by
  simp [deleteObjectRawClass3, deleteObjectRawDiamond, nda_deallocate,
        destroyClass3, destroyMostDerived, constructClass3,
        constructMostDerived, class3DeleteObjectRawRun,
        diamondDeleteObjectRawRun, nda_allocate, sizeof_my_Class3,
        sizeof_my_MostDerived, nextFootprint]

/-- C3 counterexample: for `my_NewDeleteAllocator` (which overrides only
`allocate` and `deallocate`) in a fresh state, the inherited extended
allocate at size 0 returns a non-null sentinel pointer while `allocate(0)`
returns the null pointer, so the extended allocate does not return exactly
what `allocate(size)` returns for every size including zero (the case-1
assertions at bslma_allocator.t.cpp lines 1148-1164 pin both sides). -/
theorem do_allocate_zero_differs :
    (nda_do_allocate ⟨0, ⟨0, [], fun _ => 0⟩, [], ⟨0, 0, 0, 0, 0, 0⟩⟩ 0 1).1 ≠
    (nda_allocate ⟨0, ⟨0, [], fun _ => 0⟩, [], ⟨0, 0, 0, 0, 0, 0⟩⟩ 0).1 := by
  simp [nda_do_allocate, default_do_allocate, nda_allocate,
        zeroSizedSentinelAddr]

/-- C3 amended: for every state, size and alignment, the inherited default
extended deallocate performs exactly `deallocate(pointer)`; the extended
allocate returns exactly what `allocate(size)` returns whenever the size is
nonzero, while a zero-byte request (for which `allocate` returns null)
yields the fixed non-null sentinel pointer, the same one on every call. -/
theorem do_allocate_default_forwards (w : World) (bytes align : Nat)
    (p : Option Nat) :
    (bytes ≠ 0 → nda_do_allocate w bytes align = nda_allocate w bytes) ∧
    (nda_do_allocate w 0 align).1 = some zeroSizedSentinelAddr ∧
    nda_do_deallocate w p bytes align = nda_deallocate w p := by
  refine ⟨fun h => ?_, ?_, rfl⟩
  · simp [nda_do_allocate, default_do_allocate, nda_allocate, h]
  · simp [nda_do_allocate, default_do_allocate, nda_allocate]

/-- Witness for the amended C3 theorem at a concrete state: the allocate
half at the nonzero size 2 (discharging the nonzero-size hypothesis), the
zero-byte sentinel, and the deallocate half at size 0 with a null pointer —
the size at which the test driver's only extended-deallocate call (line
1167) is made. -/
theorem do_allocate_default_forwards_witness :
    (2 : Nat) ≠ 0 ∧
    (nda_do_allocate ⟨0, ⟨0, [], fun _ => 0⟩, [], ⟨0, 0, 0, 0, 0, 0⟩⟩ 2 1 =
       nda_allocate ⟨0, ⟨0, [], fun _ => 0⟩, [], ⟨0, 0, 0, 0, 0, 0⟩⟩ 2) ∧
    ((nda_do_allocate ⟨0, ⟨0, [], fun _ => 0⟩, [], ⟨0, 0, 0, 0, 0, 0⟩⟩ 0 1).1 =
       some zeroSizedSentinelAddr) ∧
    (nda_do_deallocate ⟨0, ⟨0, [], fun _ => 0⟩, [], ⟨0, 0, 0, 0, 0, 0⟩⟩ none 0 1 =
       nda_deallocate ⟨0, ⟨0, [], fun _ => 0⟩, [], ⟨0, 0, 0, 0, 0, 0⟩⟩ none) :=
  ⟨by decide,
   (do_allocate_default_forwards ⟨0, ⟨0, [], fun _ => 0⟩, [], ⟨0, 0, 0, 0, 0, 0⟩⟩
      2 1 none).1 (by decide),
   (do_allocate_default_forwards ⟨0, ⟨0, [], fun _ => 0⟩, [], ⟨0, 0, 0, 0, 0, 0⟩⟩
      0 1 none).2.1,
   (do_allocate_default_forwards ⟨0, ⟨0, [], fun _ => 0⟩, [], ⟨0, 0, 0, 0, 0, 0⟩⟩
      0 1 none).2.2⟩

/-- C5 counterexample: deallocating a null pointer does not leave a
`my_NewDeleteAllocator`'s observable state unchanged — its `getCount`
accessor reports one more call afterwards (the case-1 assertion at
bslma_allocator.t.cpp line 1156 expects exactly this increment). -/
theorem deallocate_null_changes_count :
    ¬ ((nda_deallocate ⟨0, ⟨0, [], fun _ => 0⟩, [], ⟨0, 0, 0, 0, 0, 0⟩⟩
          none).count =
       (⟨0, ⟨0, [], fun _ => 0⟩, [], ⟨0, 0, 0, 0, 0, 0⟩⟩ : World).count) := by
  simp [nda_deallocate]

/-- C5 amended: for every allocator state, deallocating a null pointer
releases nothing — the backing heap and the global object counters are
untouched and no crash occurs — but the instrumented allocators still record
the call: `my_NewDeleteAllocator` increments its call count by one, and
`my_Allocator` increments its deallocate counter by one while leaving its
allocate counter and last-argument record unchanged. -/
theorem deallocate_null_releases_nothing (w : World) (A : my_Allocator) :
    (nda_deallocate w none).heap = w.heap ∧
    (nda_deallocate w none).globals = w.globals ∧
    (nda_deallocate w none).count = w.count + 1 ∧
    (my_Allocator.deallocate A none).d_allocateCount = A.d_allocateCount ∧
    (my_Allocator.deallocate A none).d_arg = A.d_arg ∧
    (my_Allocator.deallocate A none).d_deallocateCount =
      A.d_deallocateCount + 1 := by
  simp [nda_deallocate, my_Allocator.deallocate]

/-- C6: calling `deleteObject` or `deleteObjectRaw` with a typed null
pointer, or with the null-pointer-literal overloads, has no observable side
effect at all: the entire world state (destructor counters, allocator call
count, heap, event trace) is returned unchanged. -/
theorem deleteObject_null_noop (w : World) (t : DiamondBase) :
    deleteObjectDiamond w t none = w ∧
    deleteObjectRawDiamond w none = w ∧
    deleteObjectRawClass3 w none = w ∧
    deleteObjectNullLiteral w = w ∧
    deleteObjectRawNullLiteral w = w := by
  simp [deleteObjectDiamond, deleteObjectRawDiamond, deleteObjectRawClass3,
        deleteObjectNullLiteral, deleteObjectRawNullLiteral]

/-- C7: a zero-byte `allocate` is permitted and counted: on
`my_NewDeleteAllocator` it increments the call count by one while returning
the null pointer and touching no heap block, and the subsequent `deallocate`
of that null result also increments the count by one; `my_Allocator`
likewise returns null for size 0 yet counts both calls. -/
theorem allocate_zero_counts (w : World) (A : my_Allocator) :
    (nda_allocate w 0).1 = none ∧
    (nda_allocate w 0).2.count = w.count + 1 ∧
    (nda_allocate w 0).2.heap = w.heap ∧
    (nda_deallocate (nda_allocate w 0).2 (nda_allocate w 0).1).count =
      w.count + 2 ∧
    (my_Allocator.allocate A 0).1 = none ∧
    (my_Allocator.allocate A 0).2.d_allocateCount = A.d_allocateCount + 1 ∧
    (my_Allocator.deallocate (my_Allocator.allocate A 0).2
        (my_Allocator.allocate A 0).1).d_deallocateCount =
      A.d_deallocateCount + 1 := by
  simp [nda_allocate, nda_deallocate, my_Allocator.allocate,
        my_Allocator.deallocate]

/-- C8: the placement expression `new (allocator) T` acquires memory with a
single `allocate` call whose argument is exactly `sizeof(T)` (shown by the
one-element call trace, by `my_Allocator` recording the exact size argument
and one more allocate call, and instantiated at the sizes 1, 2, 4, 8 and 15
of the test driver's case 4) and evaluates to the very pointer that
`allocate` call returned. -/
theorem operator_new_forwards_size (A : my_Allocator) (size : Nat) :
    operatorNewBslma A size = my_Allocator.allocate A size ∧
    (operatorNewBslma A size).2.d_arg = some size ∧
    (operatorNewBslma A size).2.d_fun = some 1 ∧
    (operatorNewBslma A size).2.d_allocateCount = A.d_allocateCount + 1 ∧
    (operatorNewBslma A size).1 =
      (if size = 0 then none else some A.selfAddr) ∧
    (operatorNewBslma A 1).1 = some A.selfAddr ∧
    (operatorNewBslma A 2).1 = some A.selfAddr ∧
    (operatorNewBslma A 4).1 = some A.selfAddr ∧
    (operatorNewBslma A 8).1 = some A.selfAddr ∧
    (operatorNewBslma A 15).1 = some A.selfAddr ∧
    (placementNew my_Allocator.allocate my_Allocator.deallocate size
        (fun _ => (Except.ok () : Except Int Unit)) A).2.2 =
      [AllocEvent.allocCall size (operatorNewBslma A size).1] ∧
    (placementNew my_Allocator.allocate my_Allocator.deallocate size
        (fun _ => (Except.ok () : Except Int Unit)) A).1 =
      Except.ok ((operatorNewBslma A size).1, ()) := by
  simp [operatorNewBslma, my_Allocator.allocate, placementNew]

/-- C9: copy assignment of the allocator-aware `ball::Record` and
`ball::Attribute` sets the target's value fields to those of the source but
never changes the allocator the target holds: after assignment the record
still holds the `d_allocator_p` (and embedded counting allocator) it was
constructed with, and the attribute's `get_allocator` still reports the
allocator installed at its construction. -/
theorem assignment_preserves_allocator (F U A : Type)
    (t s : ball.Record F U A) (a b : ball.Attribute) :
    (ball.Record.assign t s).d_allocator_p = t.d_allocator_p ∧
    (ball.Record.assign t s).d_allocator = t.d_allocator ∧
    (ball.Record.assign t s).d_fixedFields = s.d_fixedFields ∧
    (ball.Record.assign t s).d_userFields = s.d_userFields ∧
    (ball.Record.assign t s).d_attributes = s.d_attributes ∧
    (ball.Attribute.assign a b).get_allocator = a.get_allocator ∧
    (ball.Attribute.assign a b).d_name = b.d_name ∧
    (ball.Attribute.assign a b).d_value.data = b.d_value.data ∧
    (ball.Attribute.assign a b).d_hashValue = b.d_hashValue := by
  simp [ball.Record.assign, ball.Attribute.assign, ball.Value.assign,
        ball.Attribute.get_allocator]

/-- C10: equality of `ball::Record` compares the attribute container in
addition to the fixed fields and user-defined fields: two records whose
fixed and user fields agree but whose attribute containers differ compare
unequal under the free `operator==` and unequal under `operator!=`. -/
theorem record_eq_compares_attributes {F U A : Type} [DecidableEq F]
    [DecidableEq U] [DecidableEq A] (r1 r2 : ball.Record F U A)
    (hf : r1.d_fixedFields = r2.d_fixedFields)
    (hu : r1.d_userFields = r2.d_userFields)
    (ha : r1.d_attributes ≠ r2.d_attributes) :
    ball.recordEq r1 r2 = false ∧ ball.recordNe r1 r2 = true := by
  simp [ball.recordEq, ball.recordNe, hf, hu, ha]

/-- Witness for the C10 theorem at two concrete records that agree on fixed
and user fields but hold different attribute lists. -/
theorem record_eq_compares_attributes_witness :
    ((⟨0, 1, 2, [3], 7⟩ : ball.Record Nat Nat Nat).d_fixedFields =
       (⟨9, 1, 2, [4], 8⟩ : ball.Record Nat Nat Nat).d_fixedFields) ∧
    ((⟨0, 1, 2, [3], 7⟩ : ball.Record Nat Nat Nat).d_userFields =
       (⟨9, 1, 2, [4], 8⟩ : ball.Record Nat Nat Nat).d_userFields) ∧
    ((⟨0, 1, 2, [3], 7⟩ : ball.Record Nat Nat Nat).d_attributes ≠
       (⟨9, 1, 2, [4], 8⟩ : ball.Record Nat Nat Nat).d_attributes) ∧
    (ball.recordEq (⟨0, 1, 2, [3], 7⟩ : ball.Record Nat Nat Nat)
        ⟨9, 1, 2, [4], 8⟩ = false ∧
     ball.recordNe (⟨0, 1, 2, [3], 7⟩ : ball.Record Nat Nat Nat)
        ⟨9, 1, 2, [4], 8⟩ = true) :=
  ⟨rfl, rfl, by decide,
   record_eq_compares_attributes _ _ rfl rfl (by decide)⟩
